import Mathlib

/-!
# Verification of the TikTok downloader's download-and-extraction service

Shallow embedding of `src/nodejs_space/src/download/download.service.ts`
(`DownloadService`): the yt-dlp subprocess classification, the artifact
check, comment extraction (ranking, truncation, formatting) and the
per-request file lifecycle.  External nondeterminism (subprocess outcomes,
filesystem contents, JSON parse results) is passed in explicitly through
environment records; machine behaviour (exit codes, stderr text) is modelled
with `Nat`/`String`.
-/

set_option maxRecDepth 10000

namespace TikTokDL

/-- JS `s.substring(0, n)`: the first `n` characters of `s` (all of `s`
when it is shorter). -/
def strTake (s : String) (n : Nat) : String := ⟨s.data.take n⟩

/-- Is `pat` a prefix of `l`? (character-exact). -/
def listPrefixEq : List Char → List Char → Bool
  | [], _ => true
  | _ :: _, [] => false
  | a :: as, b :: bs => a == b && listPrefixEq as bs

/-- Does `l` contain `pat` as a contiguous run? -/
def listHasSub (pat : List Char) : List Char → Bool
  | [] => listPrefixEq pat []
  | l@(_ :: t) => listPrefixEq pat l || listHasSub pat t

/-- JS `s.includes(pat)`: substring containment. -/
def strContainsSub (s pat : String) : Bool := listHasSub pat.data s.data

/-- A raw comment parsed from yt-dlp's `.info.json` metadata file.
Mirrors the `Comment` interface: `author: string; text: string;
like_count?: number` (like counts are non-negative integers). -/
structure Comment where
  author : String
  text : String
  like_count : Option Nat
deriving DecidableEq, Repr

/-- The ranking key: `comment.like_count || 0` — an absent like count is
treated as `0`. -/
def likeKey (c : Comment) : Nat := c.like_count.getD 0

/-- The ordering induced by the comparator
`(a, b) => (b.like_count || 0) - (a.like_count || 0)`: `a` may precede `b`
exactly when the comparator is `≤ 0`, i.e. descending like counts. -/
def likeOrder (a b : Comment) : Prop := likeKey b ≤ likeKey a

instance : DecidableRel likeOrder := fun a b => Nat.decLe (likeKey b) (likeKey a)

instance : IsTotal Comment likeOrder := ⟨fun a b => Nat.le_total (likeKey b) (likeKey a)⟩

instance : IsTrans Comment likeOrder := ⟨fun _ _ _ h h' => Nat.le_trans h' h⟩

/-- Models `comments.sort((a, b) => (b.like_count || 0) - (a.like_count || 0))`.
Since ES2019, `Array.prototype.sort` is required to be stable, so any stable
sort by the comparator's order models it; we use Mathlib's stable
`List.insertionSort`. -/
def sortComments (l : List Comment) : List Comment := l.insertionSort likeOrder

/-- Models `.slice(0, 15)`: the top 15 comments by descending like count. -/
def topComments (l : List Comment) : List Comment := (sortComments l).take 15

/-- Per-comment display-text truncation:
`comment.text.length > 200 ? comment.text.substring(0, 200) + '...' : comment.text`. -/
def truncateText (t : String) : String :=
  if t.length > 200 then strTake t 200 ++ "..." else t

/-- One formatted line: `` `${index + 1}. ${comment.author}: ${commentText}` ``
(`index` is the 0-based position in the ranked list). -/
def formatComment (index : Nat) (c : Comment) : String :=
  toString (index + 1) ++ ". " ++ c.author ++ ": " ++ truncateText c.text

/-- The formatted lines of a ranked comment list, in order
(`topComments.map((comment, index) => ...)`). -/
def commentLines (l : List Comment) : List String :=
  l.enum.map fun p => formatComment p.1 p.2

/-- The `textContent` block: the lines joined with `'\n\n'`. -/
def commentsBlock (l : List Comment) : String :=
  String.intercalate "\n\n" (commentLines l)

/-- Source `const maxSize = 5000` — cap on the whole text block. -/
def maxSize : Nat := 5000

/-- The marker appended when the whole block is truncated. -/
def truncationNotice : String := "\n\n[... comentários truncados devido ao tamanho]"

/-- Whole-block cap:
`textContent.length > maxSize ? textContent.substring(0, maxSize) + notice : textContent`. -/
def capBlock (t : String) : String :=
  if t.length > maxSize then strTake t maxSize ++ truncationNotice else t

/-- The final text written to `<id>_comments.txt` from the raw parsed
comment list: rank, keep 15, format each line, join, cap. -/
def renderComments (comments : List Comment) : String :=
  capBlock (commentsBlock (topComments comments))

/-! ## Error taxonomy and subprocess outcomes -/

/-- The two NestJS exception classes the service throws:
`BadRequestException` (HTTP 400) and `InternalServerErrorException`
(HTTP 500).  The controller rethrows them unchanged, so this class is the
caller-visible error kind. -/
inductive ExceptionKind where
  | badRequest
  | internalServerError
deriving DecidableEq, Repr

/-- A thrown NestJS HTTP exception: its class and its message string. -/
structure HttpException where
  kind : ExceptionKind
  message : String
deriving DecidableEq, Repr

/-- A JS exception value as seen by a `catch` block: either one of the two
HTTP exception classes above, or some other runtime `Error` (fs errors,
`JSON.parse` errors, spawn errors) carrying only its message. -/
inductive JsError where
  | http (e : HttpException)
  | node (message : String)
deriving DecidableEq, Repr

/-- The `error.message` of a caught exception. -/
def JsError.msg : JsError → String
  | .http e => e.message
  | .node m => m

/-- Models `error instanceof BadRequestException`. -/
def JsError.isBadRequest : JsError → Bool
  | .http e => e.kind = ExceptionKind.badRequest
  | .node _ => false

/-- Terminal outcome of one `spawn('yt-dlp', args)` invocation: either the
`error` event fired (the binary could not be started), or the process
exited with a code, having accumulated `stderr`. -/
inductive ProcResult where
  | spawnError (message : String)
  | exited (code : Nat) (stderr : String)
deriving DecidableEq, Repr

/-- The stderr classifier of `executeYtDlp` (the `else` branch of the
`close` handler, lines 187–208): substring-match the accumulated stderr
into one of four `BadRequestException`s, defaulting to an
`InternalServerErrorException` carrying the raw stderr
(`stderr || 'Unknown error'`). -/
def classifyYtDlpFailure (stderr : String) : HttpException :=
  if strContainsSub stderr "Video unavailable" then
    ⟨.badRequest, "Video is unavailable or private"⟩
  else if strContainsSub stderr "Unsupported URL" then
    ⟨.badRequest, "Unsupported or invalid TikTok URL"⟩
  else if strContainsSub stderr "HTTP Error 404" then
    ⟨.badRequest, "Video not found"⟩
  else if strContainsSub stderr "requiring login" || strContainsSub stderr "Use --cookies" then
    ⟨.badRequest,
      "TikTok requires authentication. Please configure YTDLP_COOKIES_BROWSER in .env (e.g., chrome, firefox, edge, safari)"⟩
  else
    ⟨.internalServerError,
      "Download failed: " ++ (if stderr = "" then "Unknown error" else stderr)⟩

/-- Models `executeYtDlp` (video download invocation): rejects with an
`InternalServerErrorException` on a spawn error, resolves on exit code 0,
and rejects with the classified exception on any nonzero exit. -/
def executeYtDlp (r : ProcResult) : Except JsError Unit :=
  match r with
  | .spawnError m =>
      .error (.http ⟨.internalServerError, "Failed to execute yt-dlp: " ++ m⟩)
  | .exited code stderr =>
      if code = 0 then .ok () else .error (.http (classifyYtDlpFailure stderr))

/-- Models `executeYtDlpComments` (metadata invocation): rejects with the raw
spawn `Error` on a spawn error, but resolves on exit for every exit code —
a nonzero exit is only logged (`// Don't reject, just warn`). -/
def executeYtDlpComments (r : ProcResult) : Except JsError Unit :=
  match r with
  | .spawnError m => .error (.node m)
  | .exited _ _ => .ok ()

/-! ## Filesystem artifacts of one request

A request with identifier `id` works with exactly three files it creates
in the downloads directory, all namespaced by `id`: the video output
`<id>.mp4`, the metadata sidecar `<id>.info.json` written by the metadata
invocation, and the formatted `<id>_comments.txt`.  The lifecycle model
tracks the presence of these three artifacts; `fs.unlink` removes an entry
and rejects when the entry is absent. -/

/-- Models `join(this.downloadsDir, name)` (POSIX join of a directory and a
relative file name). -/
def joinPath (dir name : String) : String := dir ++ "/" ++ name

/-- Path `join(this.downloadsDir, videoId + '.mp4')` — the `-o` target of the
video invocation and the path the service stats and streams. -/
def videoOutputPath (dir id : String) : String := joinPath dir (id ++ ".mp4")

/-- Path `join(this.downloadsDir, videoId + '.info.json')` — written by
`yt-dlp --write-info-json` with output template `<dir>/<id>`. -/
def infoJsonPath (dir id : String) : String := joinPath dir (id ++ ".info.json")

/-- Path `join(this.downloadsDir, videoId + '_comments.txt')`. -/
def commentsTxtPath (dir id : String) : String := joinPath dir (id ++ "_comments.txt")

/-- Result of a successful `fs.stat`: whether the path is a regular file,
and its size in bytes. -/
structure FileStat where
  isFile : Bool
  size : Nat
deriving DecidableEq, Repr

/-- Presence of the three per-request artifacts on disk. -/
structure ArtifactState where
  videoFile : Bool
  infoJson : Bool
  commentsTxt : Bool
deriving DecidableEq, Repr

/-! ## Comment extraction -/

/-- External nondeterminism of one `extractComments` call: the outcome of
the metadata subprocess; whether that run left `<id>.info.json` on disk
(only possible when the process actually ran); the result of
`JSON.parse` on that file's content (`none` = the parse throws, carrying
`parseErrMsg`; `some info` = parsed object whose optional `comments`
field is `info`). -/
structure CommentsEnv where
  proc : ProcResult
  infoJsonWritten : Bool
  parsed : Option (Option (List Comment))
  parseErrMsg : String

/-- Did the metadata invocation leave the sidecar file?  A spawn error
means the process never started and could not have written it. -/
def CommentsEnv.sidecarWritten (env : CommentsEnv) : Bool :=
  match env.proc with
  | .spawnError _ => false
  | .exited _ _ => env.infoJsonWritten

/-- The body of `extractComments` without its top-level `try/catch`: each
`await` that can reject surfaces as `.error` carrying the exception and
the artifact state at the throw point.  On success it returns the content
written to `<id>_comments.txt` (`some content`; the source returns the
file's path and the orchestrator reads the file back — the model fuses
the two) or `none` for the "no comments" outcome, plus the artifact
state. -/
def extractCommentsBody (env : CommentsEnv) (st : ArtifactState) :
    Except (JsError × ArtifactState) (Option String × ArtifactState) :=
  let st1 : ArtifactState := { st with infoJson := env.sidecarWritten }
  match executeYtDlpComments env.proc with
  | .error e => .error (e, st1)
  | .ok _ =>
    -- `fs.access(commentsJsonPath)` check
    if !st1.infoJson then .ok (none, st1)
    else
      -- `fs.readFile` + `JSON.parse`
      match env.parsed with
      | none => .error (.node env.parseErrMsg, st1)
      | some info =>
        -- `videoInfo.comments || []`
        let comments := info.getD []
        if comments.isEmpty then
          -- `if (comments.length === 0)`: unlink the sidecar, return null
          .ok (none, { st1 with infoJson := false })
        else
          -- rank/format/cap, write the txt file, unlink the sidecar
          .ok (some (renderComments comments),
               { st1 with infoJson := false, commentsTxt := true })

/-- Models `extractComments` with its `try/catch`: any rejection of the body is
caught, both intermediate files are unlinked best-effort
(`.catch(() => {})`), and `null` is returned.  The `Except` layer is kept
so that "never raises to its caller" is a provable statement rather than
a typing artifact. -/
def extractComments (env : CommentsEnv) (st : ArtifactState) :
    Except (JsError × ArtifactState) (Option String × ArtifactState) :=
  match extractCommentsBody env st with
  | .ok r => .ok r
  | .error (_, stE) => .ok (none, { stE with infoJson := false, commentsTxt := false })

/-! ## The download orchestration -/

/-- The `DownloadResult` as far as the caller can observe it: the advertised
filename, the streamed size (`stats.size`), and the comments text when
extraction succeeded (`commentsContent`; its presence coincides with
`commentsFile`). -/
structure DownloadResult where
  filename : String
  size : Nat
  commentsContent : Option String
deriving DecidableEq, Repr

/-- How the result stream terminates: its `close` event or its `error`
event. -/
inductive StreamEnd where
  | closed
  | errored
deriving DecidableEq, Repr

/-- External nondeterminism of one `downloadVideo` request: the video
subprocess outcome; a snapshot `fsStat` of `fs.stat` results by path right
after that subprocess finished (`none` = the path does not exist and
`fs.stat` rejects, with a message `statErrMsg`); the comment-extraction
environment; and how the result stream eventually terminates. -/
structure Env where
  videoProc : ProcResult
  fsStat : String → Option FileStat
  statErrMsg : String
  cenv : CommentsEnv
  streamEnd : StreamEnd

/-- The `try` body of `downloadVideo` (lines 58–118), without the final
`catch`: run the video subprocess, stat the output path, validate it,
attempt comment extraction under its own inner `try/catch`, and assemble
the result.  Errors carry the artifact state at the throw point. -/
def downloadBody (env : Env) (dir id : String) :
    Except (JsError × ArtifactState) (DownloadResult × ArtifactState) :=
  -- artifacts on disk once the video subprocess has finished
  let st0 : ArtifactState :=
    { videoFile := (env.fsStat (videoOutputPath dir id)).isSome,
      infoJson := false, commentsTxt := false }
  match executeYtDlp env.videoProc with
  | .error e => .error (e, st0)
  | .ok _ =>
    match env.fsStat (videoOutputPath dir id) with
    | none => .error (.node env.statErrMsg, st0)   -- `fs.stat` rejects (ENOENT)
    | some stats =>
      if !stats.isFile || stats.size = 0 then
        .error (.http ⟨.badRequest, "Downloaded file is invalid or empty"⟩, st0)
      else
        -- inner try/catch: extraction failure is logged and ignored
        let ec := match extractComments env.cenv st0 with
          | .ok (c, s) => (c, s)
          | .error (_, s) => ((none : Option String), s)
        .ok ({ filename := "tiktok_" ++ id ++ ".mp4",
               size := stats.size,
               commentsContent := ec.1 }, ec.2)

/-- The `catch` block of `downloadVideo` (lines 119–133), applied to the
caught exception after the best-effort `fs.unlink(outputPath)`: a
`BadRequestException` is rethrown unchanged, anything else is wrapped as
`InternalServerErrorException('Failed to download video: ' + message)`. -/
def wrapCatch (e : JsError) : HttpException :=
  match e with
  | .http ex =>
      if ex.kind = ExceptionKind.badRequest then ex
      else ⟨.internalServerError, "Failed to download video: " ++ ex.message⟩
  | .node m => ⟨.internalServerError, "Failed to download video: " ++ m⟩

/-- Models `downloadVideo(url)` up to its synchronous return: the classified
result and the artifact state at that moment (cleanup callbacks not yet
fired on the success path; on the failure path the `catch` has already
unlinked the video output best-effort). -/
def downloadVideo (env : Env) (dir id : String) :
    Except HttpException DownloadResult × ArtifactState :=
  match downloadBody env dir id with
  | .error (e, st) => (.error (wrapCatch e), { st with videoFile := false })
  | .ok (r, st) => (.ok r, st)

/-- The cleanup registered on the result stream (both the `close` handler,
lines 84–97, and the `error` handler, lines 100–108, perform it): unlink
the video file, then — if a comments file path was returned — unlink it
with its own swallowed rejection.  If the video unlink rejects (the file
is already gone), the comments unlink inside the same `try` is skipped. -/
def streamCleanup (hasCommentsFile : Bool) (st : ArtifactState) : ArtifactState :=
  if st.videoFile then
    { videoFile := false,
      infoJson := st.infoJson,
      commentsTxt := if hasCommentsFile then false else st.commentsTxt }
  else st

/-- A fully completed request: `downloadVideo` plus, on the success path,
the stream-lifecycle cleanup once the stream terminates (by either of its
two terminal events). -/
def requestComplete (env : Env) (dir id : String) :
    Except HttpException DownloadResult × ArtifactState :=
  match downloadVideo env dir id with
  | (.ok r, st) =>
      let st' := match env.streamEnd with
        | .closed => streamCleanup r.commentsContent.isSome st
        | .errored => streamCleanup r.commentsContent.isSome st
      (.ok r, st')
  | (.error e, st) => (.error e, st)

/-- The exception kind of a failed result, if it failed. -/
def errKind : Except HttpException DownloadResult → Option ExceptionKind
  | .error e => some e.kind
  | .ok _ => none

/-! ## General lemmas about the string helpers -/

theorem strLength_eq_data (s : String) : s.length = s.data.length := rfl

theorem strTake_length (s : String) (n : Nat) : (strTake s n).length = min n s.length := by
  rw [strLength_eq_data, strLength_eq_data]
  show (s.data.take n).length = _
  rw [List.length_take]

theorem strLength_append (a b : String) : (a ++ b).length = a.length + b.length := by
  rw [strLength_eq_data, strLength_eq_data, strLength_eq_data, String.data_append,
    List.length_append]

theorem listPrefixEq_self_append (p rest : List Char) : listPrefixEq p (p ++ rest) = true := by
  induction p with
  | nil => rfl
  | cons a as ih => simp [listPrefixEq, ih]

theorem listHasSub_append_left (p a b : List Char) : listHasSub p (a ++ (p ++ b)) = true := by
  induction a with
  | nil =>
    cases hp : p ++ b with
    | nil => simp_all [listHasSub, listPrefixEq]
    | cons c t => simp [listHasSub, hp ▸ listPrefixEq_self_append p b]
  | cons c t ih =>
    cases hq : t ++ (p ++ b) with
    | nil =>
      have := congrArg List.length hq
      simp at this
      obtain ⟨_, h2, _⟩ := this
      subst h2
      simp_all [listHasSub, listPrefixEq]
    | cons d u => simp [listHasSub, ← hq, ih]

theorem strContainsSub_sandwich (a s b : String) : strContainsSub (a ++ s ++ b) s = true := by
  have h : (a ++ s ++ b).data = a.data ++ (s.data ++ b.data) := by
    simp [String.data_append]
  rw [strContainsSub, h, listHasSub_append_left]

theorem strContainsSub_append_left (a s : String) : strContainsSub (a ++ s) s = true := by
  have h : (a ++ s).data = a.data ++ (s.data ++ ([] : List Char)) := by
    simp [String.data_append]
  rw [strContainsSub, h, listHasSub_append_left]

theorem strContainsSub_empty_pat (s : String) : strContainsSub s "" = true := by
  rw [strContainsSub]
  cases h : s.data with
  | nil => rfl
  | cons c t => simp [listHasSub, listPrefixEq]

/-! ## General lemmas about the comment-ranking pipeline -/

theorem filter_orderedInsert_of_key (v : Nat) (a : Comment) (l : List Comment)
    (ha : likeKey a = v) :
    (List.orderedInsert likeOrder a l).filter (fun c => likeKey c == v)
      = a :: l.filter (fun c => likeKey c == v) := by
  induction l with
  | nil => simp [List.orderedInsert, List.filter, ha]
  | cons b t ih =>
    by_cases h : likeOrder a b
    · simp [List.orderedInsert, h, List.filter_cons, ha]
    · have hb : ¬ (likeKey b == v) = true := by
        simp only [likeOrder, not_le] at h
        simp [Nat.ne_of_gt (ha ▸ h)]
      simp [List.orderedInsert, h, List.filter_cons, hb, ih]

theorem filter_orderedInsert_of_ne (v : Nat) (a : Comment) (l : List Comment)
    (ha : likeKey a ≠ v) :
    (List.orderedInsert likeOrder a l).filter (fun c => likeKey c == v)
      = l.filter (fun c => likeKey c == v) := by
  induction l with
  | nil => simp [List.orderedInsert, List.filter_cons, ha]
  | cons b t ih =>
    by_cases h : likeOrder a b
    · simp [List.orderedInsert, h, List.filter_cons, ha]
    · simp [List.orderedInsert, h, List.filter_cons, ih]

/-- Stability of the ranking: for every like-count value, the comments
carrying that value appear in `sortComments l` exactly as they appear in
`l`. -/
theorem sortComments_filter (v : Nat) (l : List Comment) :
    (sortComments l).filter (fun c => likeKey c == v)
      = l.filter (fun c => likeKey c == v) := by
  induction l with
  | nil => rfl
  | cons a t ih =>
    show (List.orderedInsert likeOrder a (sortComments t)).filter _ = _
    by_cases ha : likeKey a = v
    · rw [filter_orderedInsert_of_key v a _ ha, ih]
      simp [List.filter_cons, ha]
    · rw [filter_orderedInsert_of_ne v a _ ha, ih]
      simp [List.filter_cons, ha]

theorem sortComments_sorted (l : List Comment) :
    (sortComments l).Pairwise likeOrder :=
  List.sorted_insertionSort likeOrder l

theorem sortComments_perm (l : List Comment) : List.Perm (sortComments l) l :=
  List.perm_insertionSort likeOrder l

theorem sortComments_length (l : List Comment) : (sortComments l).length = l.length :=
  List.length_insertionSort likeOrder l

theorem filter_take_isPrefix {α : Type} (p : α → Bool) (n : Nat) (l : List α) :
    (l.take n).filter p <+: l.filter p :=
  ⟨(l.drop n).filter p, by rw [← List.filter_append, List.take_append_drop]⟩

/-! ## General lemmas about the extraction/cleanup lifecycle -/

/-- Running `extractComments` from a state with no intermediate files:
it always resolves, returns `none` or the rendered content, leaves no
intermediate file behind except the comments text file it reports, and
does not touch the video artifact. -/
theorem extractComments_run (env : CommentsEnv) (v : Bool) :
    ∃ r, extractComments env ⟨v, false, false⟩ = .ok (r, ⟨v, false, r.isSome⟩) := by
  unfold extractComments extractCommentsBody executeYtDlpComments CommentsEnv.sidecarWritten
  cases hp : env.proc with
  | spawnError m => exact ⟨none, rfl⟩
  | exited c s =>
    cases hw : env.infoJsonWritten with
    | false => exact ⟨none, rfl⟩
    | true =>
      cases hj : env.parsed with
      | none => exact ⟨none, rfl⟩
      | some info =>
        cases he : (info.getD []).isEmpty with
        | true => exact ⟨none, by simp [he]⟩
        | false => exact ⟨some (renderComments (info.getD [])), by simp [he]⟩

/-- When the video subprocess step rejects, `downloadVideo` (and hence the
completed request) reports exactly the `catch`-wrapped exception. -/
theorem requestComplete_exec_error (env : Env) (dir id : String) (e : JsError)
    (h : executeYtDlp env.videoProc = .error e) :
    (requestComplete env dir id).1 = .error (wrapCatch e) := by
  simp [requestComplete, downloadVideo, downloadBody, h]

/-- A successful `downloadBody` result has the stat's size, and that size
passed the zero-size guard. -/
theorem downloadBody_ok_size (env : Env) (dir id : String) (r : DownloadResult)
    (st : ArtifactState) (h : downloadBody env dir id = .ok (r, st)) :
    0 < r.size := by
  unfold downloadBody at h
  cases hv : executeYtDlp env.videoProc with
  | error e =>
    rw [hv] at h
    cases h
  | ok u =>
    rw [hv] at h
    cases hf : env.fsStat (videoOutputPath dir id) with
    | none =>
      rw [hf] at h
      cases h
    | some stats =>
      rw [hf] at h
      dsimp only at h
      by_cases hcond : (!stats.isFile || decide (stats.size = 0)) = true
      · rw [if_pos hcond] at h
        cases h
      · rw [if_neg hcond] at h
        simp only [Bool.or_eq_true, Bool.not_eq_true', decide_eq_true_eq, not_or] at hcond
        cases h
        simpa using Nat.pos_of_ne_zero hcond.2

/-- A successfully completed request is a successful `downloadBody` with
the same caller-visible result. -/
theorem requestComplete_ok_body (env : Env) (dir id : String) (r : DownloadResult)
    (h : (requestComplete env dir id).1 = .ok r) :
    ∃ st, downloadBody env dir id = .ok (r, st) := by
  unfold requestComplete downloadVideo at h
  cases hb : downloadBody env dir id with
  | error p =>
    obtain ⟨e, st⟩ := p
    rw [hb] at h
    simp at h
  | ok q =>
    obtain ⟨r', st⟩ := q
    rw [hb] at h
    simp at h
    exact ⟨st, by rw [← h]⟩

/-! ## Claim theorems -/

/-- C6: the extractor keeps `min 15 N` comments (so exactly 15 when
`N > 15` and all `N` when `N ≤ 15`), ordered by non-increasing like-count;
comments with equal like-counts keep their relative source order (the kept
comments with any given like-count are a prefix of the source comments
with that like-count, in source order); and for `N ≤ 15` the kept list is
a permutation of the input (all are kept, in ranked order). -/
theorem topComments_ranked_top15 :
    ∀ l : List Comment,
      (topComments l).length = min 15 l.length
      ∧ (topComments l).Pairwise (fun a b => likeKey b ≤ likeKey a)
      ∧ (∀ v : Nat,
          List.IsPrefix ((topComments l).filter (fun c => likeKey c == v))
            (l.filter (fun c => likeKey c == v)))
      ∧ (l.length ≤ 15 → List.Perm (topComments l) l) := by
  intro l
  refine ⟨?_, ?_, ?_, ?_⟩
  · rw [topComments, List.length_take, sortComments_length]
  · exact List.Pairwise.sublist (List.take_sublist _ _) (sortComments_sorted l)
  · intro v
    exact (sortComments_filter v l) ▸ (filter_take_isPrefix _ 15 (sortComments l))
  · intro h
    rw [topComments, List.take_of_length_le (by rw [sortComments_length]; exact h)]
    exact sortComments_perm l

/-- Witness for C6 at a concrete 3-comment list, exercising the
`N ≤ 15` hypothesis. -/
theorem topComments_ranked_top15_witness :
    (topComments [⟨"a", "x", some 2⟩, ⟨"b", "y", some 7⟩, ⟨"c", "z", some 2⟩]).length
        = min 15 3
    ∧ ([⟨"a", "x", some 2⟩, ⟨"b", "y", some 7⟩, ⟨"c", "z", some 2⟩] : List Comment).length ≤ 15
    ∧ List.Perm (topComments [⟨"a", "x", some 2⟩, ⟨"b", "y", some 7⟩, ⟨"c", "z", some 2⟩])
        [⟨"a", "x", some 2⟩, ⟨"b", "y", some 7⟩, ⟨"c", "z", some 2⟩] :=
  ⟨(topComments_ranked_top15 _).1, by decide,
   (topComments_ranked_top15 _).2.2.2 (by decide)⟩

/-- C8: a kept comment's display text is stored unchanged when it has at
most 200 characters; when longer, the stored text is exactly the first
200 characters followed by the ellipsis marker (200 + 3 characters in
total). -/
theorem truncateText_spec :
    ∀ t : String,
      (t.length ≤ 200 → truncateText t = t)
      ∧ (200 < t.length →
          truncateText t = strTake t 200 ++ "..."
          ∧ (strTake t 200).length = 200
          ∧ (truncateText t).length = 203) := by
  intro t
  constructor
  · intro h
    rw [truncateText, if_neg (by omega)]
  · intro h
    have h200 : (strTake t 200).length = 200 := by
      rw [strTake_length]; omega
    have heq : truncateText t = strTake t 200 ++ "..." := by
      rw [truncateText, if_pos (by omega)]
    refine ⟨heq, h200, ?_⟩
    rw [heq, strLength_append, h200]
    rfl

/-- Witness for C8 at a concrete 201-character text. -/
theorem truncateText_spec_witness :
    200 < (⟨List.replicate 201 'a'⟩ : String).length
    ∧ truncateText ⟨List.replicate 201 'a'⟩
        = strTake ⟨List.replicate 201 'a'⟩ 200 ++ "..." :=
  ⟨by decide, ((truncateText_spec ⟨List.replicate 201 'a'⟩).2 (by decide)).1⟩

/-- C9: the `i`-th formatted entry (0-based) of the joined block is
numbered `i + 1`, and the whole block is stored unchanged when it has at
most 5000 characters; when longer, the stored block is exactly the first
5000 characters followed by the truncation notice. -/
theorem commentsBlock_spec :
    ∀ l : List Comment,
      (∀ (i : Nat) (c : Comment), l[i]? = some c →
        (commentLines l)[i]?
          = some (toString (i + 1) ++ ". " ++ c.author ++ ": " ++ truncateText c.text))
      ∧ ((commentsBlock l).length ≤ 5000 → capBlock (commentsBlock l) = commentsBlock l)
      ∧ (5000 < (commentsBlock l).length →
          capBlock (commentsBlock l) = strTake (commentsBlock l) 5000 ++ truncationNotice
          ∧ (strTake (commentsBlock l) 5000).length = 5000) := by
  intro l
  refine ⟨?_, ?_, ?_⟩
  · intro i c hc
    rw [commentLines]
    simp only [List.getElem?_map, List.getElem?_enum, hc]
    rfl
  · intro h
    simp only [capBlock, maxSize]
    rw [if_neg (by omega)]
  · intro h
    have h5000 : (strTake (commentsBlock l) 5000).length = 5000 := by
      rw [strTake_length]; omega
    refine ⟨?_, h5000⟩
    simp only [capBlock, maxSize]
    rw [if_pos (by omega)]

/-- Witness for C9 at a concrete singleton list. -/
theorem commentsBlock_spec_witness :
    (commentLines [⟨"ana", "oi", some 1⟩])[0]?
        = some (toString (0 + 1) ++ ". " ++ "ana" ++ ": " ++ truncateText "oi")
    ∧ capBlock (commentsBlock [⟨"ana", "oi", some 1⟩]) = commentsBlock [⟨"ana", "oi", some 1⟩] :=
  ⟨(commentsBlock_spec _).1 0 _ rfl, (commentsBlock_spec _).2.1 (by decide)⟩

/-- C10: a comment with an absent like-count ranks with key `0`: the
ranking key of an absent like-count is `0`; in the ranked order nothing
with a positive key follows a comment whose like-count is absent; and
comments with key `0` (zero or absent like-count) keep their relative
source order. -/
theorem absent_like_count_ranking :
    (∀ author text : String, likeKey ⟨author, text, none⟩ = 0)
    ∧ (∀ l : List Comment,
        (sortComments l).Pairwise (fun a b => a.like_count = none → likeKey b = 0))
    ∧ (∀ l : List Comment,
        (sortComments l).filter (fun c => likeKey c == 0)
          = l.filter (fun c => likeKey c == 0)) := by
  refine ⟨fun _ _ => rfl, fun l => ?_, fun l => sortComments_filter 0 l⟩
  exact (sortComments_sorted l).imp
    (fun h hnone => Nat.le_zero.mp (by simpa [likeOrder, likeKey, hnone] using h))

/-- C1: `extractComments` never raises to its caller: it resolves in every
environment; a nonzero exit of the metadata invocation resolves rather
than rejects; and a spawn error of the metadata subprocess, a missing
metadata file, and a JSON parse failure each produce the "no comments"
outcome (`null`). -/
theorem extractComments_never_raises :
    (∀ (env : CommentsEnv) (st : ArtifactState), (extractComments env st).isOk = true)
    ∧ (∀ (code : Nat) (stderr : String),
        executeYtDlpComments (.exited code stderr) = .ok ())
    ∧ (∀ (env : CommentsEnv) (v : Bool) (m : String), env.proc = .spawnError m →
        extractComments env ⟨v, false, false⟩ = .ok (none, ⟨v, false, false⟩))
    ∧ (∀ (env : CommentsEnv) (v : Bool) (c : Nat) (s : String),
        env.proc = .exited c s → env.infoJsonWritten = false →
        extractComments env ⟨v, false, false⟩ = .ok (none, ⟨v, false, false⟩))
    ∧ (∀ (env : CommentsEnv) (v : Bool), env.parsed = none →
        extractComments env ⟨v, false, false⟩ = .ok (none, ⟨v, false, false⟩)) := by
  refine ⟨?_, fun _ _ => rfl, ?_, ?_, ?_⟩
  · intro env st
    unfold extractComments
    cases h : extractCommentsBody env st with
    | ok r => simp [Except.isOk, Except.toBool]
    | error p => simp [Except.isOk, Except.toBool]
  · intro env v m hp
    simp [extractComments, extractCommentsBody, CommentsEnv.sidecarWritten,
      executeYtDlpComments, hp]
  · intro env v c s hp hw
    simp [extractComments, extractCommentsBody, CommentsEnv.sidecarWritten,
      executeYtDlpComments, hp, hw]
  · intro env v hj
    cases hp : env.proc with
    | spawnError m =>
      simp [extractComments, extractCommentsBody, CommentsEnv.sidecarWritten,
        executeYtDlpComments, hp]
    | exited c s =>
      cases hw : env.infoJsonWritten with
      | false =>
        simp [extractComments, extractCommentsBody, CommentsEnv.sidecarWritten,
          executeYtDlpComments, hp, hw]
      | true =>
        simp [extractComments, extractCommentsBody, CommentsEnv.sidecarWritten,
          executeYtDlpComments, hp, hw, hj]

/-- Witness for C1: a spawn error of the metadata subprocess resolves with
the "no comments" outcome. -/
theorem extractComments_never_raises_witness :
    (extractComments ⟨.spawnError "boom", false, some (some []), "oops"⟩
        ⟨false, false, false⟩).isOk = true
    ∧ extractComments ⟨.spawnError "boom", false, some (some []), "oops"⟩
        ⟨false, false, false⟩ = .ok (none, ⟨false, false, false⟩) :=
  ⟨extractComments_never_raises.1 _ _,
   extractComments_never_raises.2.2.1 _ false "boom" rfl⟩

/-- C5: for every request, success or failure, by the time the request
fully completes no per-request artifact remains (video file, metadata
sidecar, comments text file all absent); the metadata sidecar is already
absent whenever `extractComments` returns, on every path; and each of the
three artifact paths is namespaced by the request identifier. -/
theorem request_cleanup_complete :
    (∀ (env : Env) (dir id : String),
        (requestComplete env dir id).2 = ⟨false, false, false⟩)
    ∧ (∀ (cenv : CommentsEnv) (st : ArtifactState) (r : Option String)
          (st' : ArtifactState),
        extractComments cenv st = .ok (r, st') → st'.infoJson = false)
    ∧ (∀ dir id : String,
        strContainsSub (videoOutputPath dir id) id = true
        ∧ strContainsSub (infoJsonPath dir id) id = true
        ∧ strContainsSub (commentsTxtPath dir id) id = true) := by
  refine ⟨?_, ?_, ?_⟩
  · intro env dir id
    unfold requestComplete downloadVideo downloadBody
    cases hv : executeYtDlp env.videoProc with
    | error e => simp
    | ok u =>
      cases hf : env.fsStat (videoOutputPath dir id) with
      | none => simp [hf]
      | some stats =>
        cases hva : (!stats.isFile || stats.size = 0 : Bool) with
        | true => simp [hf, hva]
        | false =>
          obtain ⟨r, hr⟩ := extractComments_run env.cenv true
          have hfi : stats.isFile = true := by
            rcases Bool.or_eq_false_iff.mp hva with ⟨ha, _⟩
            simpa using ha
          have hsz : ¬ stats.size = 0 := by
            rcases Bool.or_eq_false_iff.mp hva with ⟨_, hb⟩
            simpa using hb
          cases env.streamEnd <;> cases r <;>
            simp_all [streamCleanup]
  · intro cenv st r st' h
    unfold extractComments at h
    cases hb : extractCommentsBody cenv st with
    | error p =>
      rw [hb] at h
      cases h
      rfl
    | ok q =>
      rw [hb] at h
      cases h
      -- the body hands back `infoJson = false` on each of its `ok` paths
      unfold extractCommentsBody at hb
      cases hc : executeYtDlpComments cenv.proc with
      | error e => rw [hc] at hb; cases hb
      | ok u =>
        rw [hc] at hb
        by_cases hw : cenv.sidecarWritten = true
        · simp only [hw] at hb
          cases hj : cenv.parsed with
          | none => rw [hj] at hb; cases hb
          | some info =>
            rw [hj] at hb
            by_cases he : (info.getD []).isEmpty = true
            · simp only [he] at hb
              cases hb
              rfl
            · simp only [Bool.not_eq_true] at he
              simp only [he] at hb
              cases hb
              rfl
        · simp only [Bool.not_eq_true] at hw
          simp only [hw] at hb
          cases hb
          rfl
  · intro dir id
    refine ⟨?_, ?_, ?_⟩
    · have h : (videoOutputPath dir id).data
          = (dir.data ++ "/".data) ++ (id.data ++ ".mp4".data) := by
        simp [videoOutputPath, joinPath, String.data_append]
      rw [strContainsSub, h]
      exact listHasSub_append_left _ _ _
    · have h : (infoJsonPath dir id).data
          = (dir.data ++ "/".data) ++ (id.data ++ ".info.json".data) := by
        simp [infoJsonPath, joinPath, String.data_append]
      rw [strContainsSub, h]
      exact listHasSub_append_left _ _ _
    · have h : (commentsTxtPath dir id).data
          = (dir.data ++ "/".data) ++ (id.data ++ "_comments.txt".data) := by
        simp [commentsTxtPath, joinPath, String.data_append]
      rw [strContainsSub, h]
      exact listHasSub_append_left _ _ _

/-- Witness for C5: a concrete extraction run (metadata file never
produced) leaves no metadata sidecar. -/
theorem request_cleanup_complete_witness :
    extractComments ⟨.exited 0 "", false, some none, ""⟩ ⟨true, true, true⟩
        = .ok (none, ⟨true, false, true⟩)
    ∧ (⟨true, false, true⟩ : ArtifactState).infoJson = false :=
  ⟨rfl, request_cleanup_complete.2.1 ⟨.exited 0 "", false, some none, ""⟩
    ⟨true, true, true⟩ none ⟨true, false, true⟩ rfl⟩

/-- C2: on a nonzero exit of the video subprocess, stderr containing the
unavailable/private marker, the unsupported-URL marker, or the not-found
marker each yield a `BadRequestException` (a validation-kind error, not an
internal one), and stderr matching none of the known markers yields an
`InternalServerErrorException` whose message carries the raw stderr
text. -/
theorem stderr_marker_classification :
    ∀ (env : Env) (dir id : String) (c : Nat) (s : String),
      env.videoProc = .exited c s → c ≠ 0 →
      (strContainsSub s "Video unavailable" = true →
        errKind (requestComplete env dir id).1 = some ExceptionKind.badRequest)
      ∧ (strContainsSub s "Unsupported URL" = true →
        errKind (requestComplete env dir id).1 = some ExceptionKind.badRequest)
      ∧ (strContainsSub s "HTTP Error 404" = true →
        errKind (requestComplete env dir id).1 = some ExceptionKind.badRequest)
      ∧ (strContainsSub s "Video unavailable" = false →
        strContainsSub s "Unsupported URL" = false →
        strContainsSub s "HTTP Error 404" = false →
        strContainsSub s "requiring login" = false →
        strContainsSub s "Use --cookies" = false →
        ∃ m : String,
          (requestComplete env dir id).1
              = .error ⟨ExceptionKind.internalServerError, m⟩
          ∧ strContainsSub m s = true) := by
  intro env dir id c s hp hc
  have hexec : executeYtDlp env.videoProc = .error (.http (classifyYtDlpFailure s)) := by
    rw [hp]
    simp [executeYtDlp, hc]
  have hrc := requestComplete_exec_error env dir id _ hexec
  refine ⟨?_, ?_, ?_, ?_⟩
  · intro h1
    rw [hrc]
    simp [classifyYtDlpFailure, h1, wrapCatch, errKind]
  · intro h2
    rw [hrc]
    by_cases h1 : strContainsSub s "Video unavailable" = true
    · simp [classifyYtDlpFailure, h1, wrapCatch, errKind]
    · simp only [Bool.not_eq_true] at h1
      simp [classifyYtDlpFailure, h1, h2, wrapCatch, errKind]
  · intro h3
    rw [hrc]
    by_cases h1 : strContainsSub s "Video unavailable" = true
    · simp [classifyYtDlpFailure, h1, wrapCatch, errKind]
    · simp only [Bool.not_eq_true] at h1
      by_cases h2 : strContainsSub s "Unsupported URL" = true
      · simp [classifyYtDlpFailure, h1, h2, wrapCatch, errKind]
      · simp only [Bool.not_eq_true] at h2
        simp [classifyYtDlpFailure, h1, h2, h3, wrapCatch, errKind]
  · intro h1 h2 h3 h4 h5
    refine ⟨"Failed to download video: "
        ++ ("Download failed: " ++ (if s = "" then "Unknown error" else s)), ?_, ?_⟩
    · rw [hrc]
      simp [classifyYtDlpFailure, h1, h2, h3, h4, h5, wrapCatch]
    · by_cases hs : s = ""
      · subst hs
        exact strContainsSub_empty_pat _
      · rw [if_neg hs, ← String.append_assoc]
        exact strContainsSub_append_left _ _

/-- Witness for C2: a concrete nonzero exit with the unavailable marker is
reported as a `BadRequestException`. -/
theorem stderr_marker_classification_witness :
    errKind (requestComplete
        { videoProc := .exited 1 "ERROR: Video unavailable",
          fsStat := fun _ => none, statErrMsg := "E",
          cenv := ⟨.exited 0 "", false, none, ""⟩, streamEnd := .closed } "d" "i").1
      = some ExceptionKind.badRequest :=
  (stderr_marker_classification _ "d" "i" 1 "ERROR: Video unavailable" rfl
      (by decide)).1 (by decide)

/-- C3 counterexample: the authentication-required failure is reported
with the very same exception kind (`BadRequestException`) as the
validation failures (here, the unavailable-video case), so it is not a
distinct caller-visible error kind — only the message differs. -/
theorem auth_error_kind_counterexample :
    (requestComplete
        { videoProc := .exited 1 "tiktok: requiring login",
          fsStat := fun _ => none, statErrMsg := "E",
          cenv := ⟨.exited 0 "", false, none, ""⟩, streamEnd := .closed } "d" "i").1
      = .error ⟨ExceptionKind.badRequest,
          "TikTok requires authentication. Please configure YTDLP_COOKIES_BROWSER in .env (e.g., chrome, firefox, edge, safari)"⟩
    ∧ (requestComplete
        { videoProc := .exited 1 "ERROR: Video unavailable",
          fsStat := fun _ => none, statErrMsg := "E",
          cenv := ⟨.exited 0 "", false, none, ""⟩, streamEnd := .closed } "d" "i").1
      = .error ⟨ExceptionKind.badRequest, "Video is unavailable or private"⟩ := by
  exact ⟨rfl, rfl⟩

/-- C3 amended: a nonzero exit whose stderr carries a login/cookie marker
(and none of the earlier markers, which take precedence) is reported as a
`BadRequestException` — the same kind as the validation errors — whose
message contains the cookie-source remediation hint. -/
theorem auth_required_hint_amended :
    ∀ (env : Env) (dir id : String) (c : Nat) (s : String),
      env.videoProc = .exited c s → c ≠ 0 →
      strContainsSub s "Video unavailable" = false →
      strContainsSub s "Unsupported URL" = false →
      strContainsSub s "HTTP Error 404" = false →
      (strContainsSub s "requiring login" = true
        ∨ strContainsSub s "Use --cookies" = true) →
      (requestComplete env dir id).1
          = .error ⟨ExceptionKind.badRequest,
              "TikTok requires authentication. Please configure YTDLP_COOKIES_BROWSER in .env (e.g., chrome, firefox, edge, safari)"⟩
      ∧ strContainsSub
          "TikTok requires authentication. Please configure YTDLP_COOKIES_BROWSER in .env (e.g., chrome, firefox, edge, safari)"
          "YTDLP_COOKIES_BROWSER" = true := by
  intro env dir id c s hp hc h1 h2 h3 hm
  have hexec : executeYtDlp env.videoProc = .error (.http (classifyYtDlpFailure s)) := by
    rw [hp]
    simp [executeYtDlp, hc]
  have hrc := requestComplete_exec_error env dir id _ hexec
  refine ⟨?_, by decide⟩
  rw [hrc]
  rcases hm with hm | hm <;>
    simp [classifyYtDlpFailure, h1, h2, h3, hm, wrapCatch]

/-- Witness for C3's amended theorem at a concrete cookie-marker stderr. -/
theorem auth_required_hint_amended_witness :
    (requestComplete
        { videoProc := .exited 1 "ERROR: Use --cookies-from-browser",
          fsStat := fun _ => none, statErrMsg := "E",
          cenv := ⟨.exited 0 "", false, none, ""⟩, streamEnd := .closed } "d" "i").1
      = .error ⟨ExceptionKind.badRequest,
          "TikTok requires authentication. Please configure YTDLP_COOKIES_BROWSER in .env (e.g., chrome, firefox, edge, safari)"⟩ :=
  (auth_required_hint_amended _ "d" "i" 1 "ERROR: Use --cookies-from-browser" rfl
      (by decide) (by decide) (by decide) (by decide) (Or.inr (by decide))).1

/-- C4 counterexample: when the video subprocess exits 0 but the expected
output file is missing, `fs.stat` rejects and the request fails with an
`InternalServerErrorException` — not the validation-kind
`BadRequestException` the claim requires for the missing-file case. -/
theorem missing_artifact_counterexample :
    errKind (requestComplete
        { videoProc := .exited 0 "", fsStat := fun _ => none,
          statErrMsg := "ENOENT: no such file or directory",
          cenv := ⟨.exited 0 "", false, none, ""⟩, streamEnd := .closed } "d" "i").1
      = some ExceptionKind.internalServerError
    ∧ ¬ errKind (requestComplete
        { videoProc := .exited 0 "", fsStat := fun _ => none,
          statErrMsg := "ENOENT: no such file or directory",
          cenv := ⟨.exited 0 "", false, none, ""⟩, streamEnd := .closed } "d" "i").1
      = some ExceptionKind.badRequest := by
  exact ⟨rfl, by decide⟩

/-- C4 amended: when the subprocess succeeds and the output file exists
but is not a regular file or has size zero, the request fails with the
validation-kind `BadRequestException` ("Downloaded file is invalid or
empty"); when the file is missing the stat rejection is wrapped as an
`InternalServerErrorException`; and every successful result has size
strictly greater than zero. -/
theorem artifact_validation_amended :
    ∀ (env : Env) (dir id : String) (s : String) (stats : FileStat),
      (env.videoProc = .exited 0 s →
        env.fsStat (videoOutputPath dir id) = some stats →
        (stats.isFile = false ∨ stats.size = 0) →
        (requestComplete env dir id).1
          = .error ⟨ExceptionKind.badRequest, "Downloaded file is invalid or empty"⟩)
      ∧ (env.videoProc = .exited 0 s →
        env.fsStat (videoOutputPath dir id) = none →
        errKind (requestComplete env dir id).1 = some ExceptionKind.internalServerError)
      ∧ (∀ r : DownloadResult,
        (requestComplete env dir id).1 = .ok r → 0 < r.size) := by
  intro env dir id s stats
  refine ⟨?_, ?_, ?_⟩
  · intro hp hf hbad
    have hexec : executeYtDlp env.videoProc = .ok () := by
      rw [hp]
      simp [executeYtDlp]
    rcases hbad with h | h <;>
      simp [requestComplete, downloadVideo, downloadBody, hexec, hf, h, wrapCatch]
  · intro hp hf
    have hexec : executeYtDlp env.videoProc = .ok () := by
      rw [hp]
      simp [executeYtDlp]
    simp [requestComplete, downloadVideo, downloadBody, hexec, hf, wrapCatch, errKind]
  · intro r hok
    obtain ⟨st, hb⟩ := requestComplete_ok_body env dir id r hok
    exact downloadBody_ok_size env dir id r st hb

/-- Witness for C4's amended theorem: a zero-byte discovered file is
rejected as a validation error, and a concrete successful request has
positive size. -/
theorem artifact_validation_amended_witness :
    (requestComplete
        { videoProc := .exited 0 "", fsStat := fun _ => some ⟨true, 0⟩,
          statErrMsg := "E", cenv := ⟨.exited 0 "", false, none, ""⟩,
          streamEnd := .closed } "d" "i").1
      = .error ⟨ExceptionKind.badRequest, "Downloaded file is invalid or empty"⟩ :=
  ((artifact_validation_amended
      { videoProc := .exited 0 "", fsStat := fun _ => some ⟨true, 0⟩,
        statErrMsg := "E", cenv := ⟨.exited 0 "", false, none, ""⟩,
        streamEnd := .closed } "d" "i" "" ⟨true, 0⟩).1 rfl rfl (Or.inr rfl))

/-- C7 counterexample: there is no multi-candidate artifact locator — when
the binary exits 0 leaving only the extensionless file `<id>` (nonzero
size), the request fails with an internal error instead of locating and
streaming that file, because the code stats only the `.mp4` candidate. -/
theorem artifact_locator_counterexample :
    errKind (requestComplete
        { videoProc := .exited 0 "",
          fsStat := fun p => if p = joinPath "d" "i" then some ⟨true, 3400000⟩ else none,
          statErrMsg := "ENOENT", cenv := ⟨.exited 0 "", false, none, ""⟩,
          streamEnd := .closed } "d" "i").1
      = some ExceptionKind.internalServerError
    ∧ (fun p => if p = joinPath "d" "i" then some (⟨true, 3400000⟩ : FileStat) else none)
        (joinPath "d" "i") = some ⟨true, 3400000⟩ := by
  exact ⟨by decide, by decide⟩

/-- C7 amended: artifact location consults exactly one candidate path,
`<id>.mp4`: when the subprocess exits 0 and that path holds a regular
file of nonzero size the request succeeds and streams that size, and the
result never depends on the filesystem outside that single path (the
extensionless, `.webm` and `.mkv` candidates are never consulted). -/
theorem artifact_location_amended :
    ∀ (env : Env) (dir id : String) (s : String) (stats : FileStat),
      (env.videoProc = .exited 0 s →
        env.fsStat (videoOutputPath dir id) = some stats →
        stats.isFile = true → 0 < stats.size →
        ∃ r : DownloadResult,
          (requestComplete env dir id).1 = .ok r ∧ r.size = stats.size)
      ∧ (∀ f g : String → Option FileStat,
          f (videoOutputPath dir id) = g (videoOutputPath dir id) →
          requestComplete { env with fsStat := f } dir id
            = requestComplete { env with fsStat := g } dir id) := by
  intro env dir id s stats
  constructor
  · intro hp hf hfi hsz
    have hexec : executeYtDlp env.videoProc = .ok () := by
      rw [hp]
      simp [executeYtDlp]
    have hnz : ¬ stats.size = 0 := by omega
    obtain ⟨r, hr⟩ := extractComments_run env.cenv true
    refine ⟨{ filename := "tiktok_" ++ id ++ ".mp4", size := stats.size,
              commentsContent := r }, ?_, rfl⟩
    simp [requestComplete, downloadVideo, downloadBody, hexec, hf, hfi, hnz, hr]
  · intro f g hfg
    simp only [requestComplete, downloadVideo, downloadBody]
    rw [hfg]

/-- Witness for C7's amended theorem: a concrete request whose `.mp4`
candidate is a 42-byte regular file succeeds with size 42. -/
theorem artifact_location_amended_witness :
    ∃ r : DownloadResult,
      (requestComplete
          { videoProc := .exited 0 "", fsStat := fun _ => some ⟨true, 42⟩,
            statErrMsg := "E", cenv := ⟨.exited 0 "", false, none, ""⟩,
            streamEnd := .closed } "d" "i").1 = .ok r ∧ r.size = 42 :=
  (artifact_location_amended
      { videoProc := .exited 0 "", fsStat := fun _ => some ⟨true, 42⟩,
        statErrMsg := "E", cenv := ⟨.exited 0 "", false, none, ""⟩,
        streamEnd := .closed } "d" "i" "" ⟨true, 42⟩).1 rfl rfl rfl (by decide)

end TikTokDL
